import Mathlib

/-!
Verification development for the live voice conversation client of the
Omnix-ai repository.  The embedded code is the class
ServerSideLiveVoiceClient (client-side live voice system using HTTP/SSE):
its mutable fields become the record ClientState, its methods become pure
functions from a state to a state paired with a list of observable
effects (network requests, UI updates, audio playback, resource
operations).  Outcomes of awaited network calls are passed in as explicit
parameters, since the embedding cannot perform IO.
-/

/-- State of a MediaRecorder as exposed by the DOM API: inactive,
recording, or paused. -/
inductive RecState
  | inactive
  | recording
  | paused
deriving DecidableEq, Repr

/-- The MediaRecorder together with the media stream it was built from.
tracksLive is true while the media tracks of the underlying input stream
have not been stopped, i.e. while the client still holds the audio
device. -/
structure Recorder where
  state : RecState
  tracksLive : Bool
deriving DecidableEq, Repr

/-- The mutable fields of ServerSideLiveVoiceClient set up in its
constructor: sessionId (null until a session is created), eventSource
(modelled by whether an EventSource object is currently held), isActive,
mediaRecorder (null until setupAudioCapture succeeds), and the pending
audioChunks buffer.  A chunk is modelled as its list of bytes. -/
structure ClientState where
  sessionId : Option String
  eventSourceOpen : Bool
  isActive : Bool
  recorder : Option Recorder
  audioChunks : List (List Nat)
deriving DecidableEq, Repr

/-- The network requests the client can issue, one per fetch call in the
source: POST session/create, POST session/{sid}/text, POST
session/{sid}/audio, POST session/{sid}/end. -/
inductive Request
  | createSession
  | postText (sid : String) (text : String)
  | postAudio (sid : String) (audioBlob : List Nat)
  | endSession (sid : String)
deriving DecidableEq, Repr

/-- Observable effects of a method call: a network request, audio
playback (playAudio), UI updates (displayResponse, displayUserMessage,
showError), opening or closing the EventSource, stopping all media
tracks of the captured stream, and scheduling a reconnect attempt after
a delay in milliseconds (setTimeout in reconnect). -/
inductive Effect
  | request (r : Request)
  | play (base64Audio : String)
  | display (text : Option String)
  | displayUser (text : Option String)
  | showErr (message : String)
  | openStream (sid : String)
  | closeStream
  | stopTracks
  | scheduledRetry (delayMs : Nat)
deriving DecidableEq, Repr

/-- JavaScript truthiness of an optional string field of a parsed JSON
object: undefined and the empty string are falsy. -/
def truthy : Option String → Bool
  | none => false
  | some t => !t.isEmpty

/-- Body of a JSON response to a text or audio submission: optional
audio and text fields (the source reads data.audio and data.text). -/
structure ServerResp where
  audio : Option String
  text : Option String
deriving DecidableEq, Repr

/-- The response handling shared by sendTextMessage and
sendAudioToServer: if (data.audio) this.playAudio(data.audio); if
(data.text) this.displayResponse(data.text). -/
def respEffects (r : ServerResp) : List Effect :=
  (match r.audio with
    | some a => if a.isEmpty then [] else [Effect.play a]
    | none => []) ++
  (match r.text with
    | some t => if t.isEmpty then [] else [Effect.display (some t)]
    | none => [])

/-- startRecording(): if a mediaRecorder exists and its state is
inactive, clear audioChunks, start it and return true; otherwise return
false without touching the state. -/
def startRecording (s : ClientState) : ClientState × Bool :=
  match s.recorder with
  | some r =>
    if r.state = RecState.inactive then
      ({ s with audioChunks := [], recorder := some { r with state := RecState.recording } },
        true)
    else (s, false)
  | none => (s, false)

/-- stopRecording(): if a mediaRecorder exists and its state is
recording, stop it and return true; otherwise return false without
touching the state.  MediaRecorder.stop moves the recorder to the
inactive state and queues dataavailable and stop events; the queued
events are modelled separately (ondataavailable, onstop) and are run by
endLiveVoice when it suspends at its awaited fetch. -/
def stopRecording (s : ClientState) : ClientState × Bool :=
  match s.recorder with
  | some r =>
    if r.state = RecState.recording then
      ({ s with recorder := some { r with state := RecState.inactive } }, true)
    else (s, false)
  | none => (s, false)

/-- The mediaRecorder.ondataavailable handler from setupAudioCapture: if
(event.data.size > 0) this.audioChunks.push(event.data). -/
def ondataavailable (s : ClientState) (chunk : List Nat) : ClientState :=
  if chunk.length > 0 then { s with audioChunks := s.audioChunks ++ [chunk] } else s

/-- The trim() of a JavaScript string: drop leading and trailing
whitespace.  Modelled on the character list of the string, so that it
evaluates inside the kernel. -/
def jsTrim (t : String) : String :=
  ⟨((t.data.dropWhile Char.isWhitespace).reverse.dropWhile Char.isWhitespace).reverse⟩

/-- sendTextMessage(text): returns immediately when sessionId is null or
text trims to the empty string; otherwise POSTs the text and handles the
JSON response.  The awaited outcome is a parameter: Except.ok carries
the parsed response, Except.error the message of a rejected fetch, which
the catch block passes to showError. -/
def sendTextMessage (s : ClientState) (text : String)
    (outcome : Except String ServerResp) : ClientState × List Effect :=
  match s.sessionId with
  | none => (s, [])
  | some sid =>
    if jsTrim text = "" then (s, [])
    else
      match outcome with
      | Except.ok r => (s, Effect.request (Request.postText sid text) :: respEffects r)
      | Except.error e => (s, [Effect.request (Request.postText sid text), Effect.showErr e])

/-- sendAudioToServer(audioBlob): returns immediately when sessionId is
null; otherwise converts the blob to base64 in a FileReader and POSTs it
from the onloadend callback, handling the JSON response.  A fetch
rejection inside onloadend is an unhandled promise rejection (the
enclosing try/catch only covers setting up the reader), so it produces
no showError effect: outcome = none models that case. -/
def sendAudioToServer (s : ClientState) (audioBlob : List Nat)
    (outcome : Option ServerResp) : ClientState × List Effect :=
  match s.sessionId with
  | none => (s, [])
  | some sid =>
    match outcome with
    | some r => (s, Effect.request (Request.postAudio sid audioBlob) :: respEffects r)
    | none => (s, [Effect.request (Request.postAudio sid audioBlob)])

/-- The mediaRecorder.onstop handler from setupAudioCapture: build a
Blob from the buffered audioChunks (their bytes in capture order), clear
the buffer, and send the blob to the server. -/
def onstop (s : ClientState) (outcome : Option ServerResp) : ClientState × List Effect :=
  let audioBlob := s.audioChunks.flatten
  let s' := { s with audioChunks := [] }
  sendAudioToServer s' audioBlob outcome

/-- A server message arriving on the event stream, after JSON.parse: a
message event with role, content and audio fields, a heartbeat event, or
any other object, whose error field (if truthy) is shown.  The role is
kept as a string because the source compares it to the literals
"assistant" and "user". -/
inductive ServerData
  | message (role : String) (content : Option String) (audio : Option String)
  | heartbeat
  | other (error : Option String)
deriving DecidableEq, Repr

/-- handleServerMessage(data): an assistant message is displayed and its
audio played when present; a user message is displayed; a heartbeat is
only logged to the console; otherwise a truthy error field is shown.  No
field of the client state is written on any branch. -/
def handleServerMessage (s : ClientState) (data : ServerData) : ClientState × List Effect :=
  match data with
  | ServerData.message role content audio =>
    if role = "assistant" then
      (s, Effect.display content ::
        (match audio with
          | some a => if a.isEmpty then [] else [Effect.play a]
          | none => []))
    else if role = "user" then
      (s, [Effect.displayUser content])
    else (s, [])
  | ServerData.heartbeat => (s, [])
  | ServerData.other err =>
    match err with
    | some e => if e.isEmpty then (s, []) else (s, [Effect.showErr e])
    | none => (s, [])

/-- setupEventStream(): returns immediately when sessionId is null;
otherwise opens a new EventSource on session/{sid}/stream and installs
the onmessage and onerror handlers. -/
def setupEventStream (s : ClientState) : ClientState × List Effect :=
  match s.sessionId with
  | none => (s, [])
  | some sid => ({ s with eventSourceOpen := true }, [Effect.openStream sid])

/-- reconnect(): setTimeout(() => this.setupEventStream(), 3000) — a
single retry after a fixed 3000 ms delay.  The model lets the timeout
fire on the state reconnect was called in (nothing else runs in the
traces considered here), so the effect list is the scheduled delay
followed by what setupEventStream does when the timeout fires. -/
def reconnect (s : ClientState) : ClientState × List Effect :=
  let (s', effs) := setupEventStream s
  (s', Effect.scheduledRetry 3000 :: effs)

/-- The eventSource.onerror handler from setupEventStream: reconnect
exactly when the readyState of the EventSource is CLOSED. -/
def onSseError (s : ClientState) (readyStateClosed : Bool) : ClientState × List Effect :=
  if readyStateClosed then reconnect s else (s, [])

/-- end(): returns immediately when sessionId is null.  Otherwise it
stops recording if active, closes the event stream, awaits the POST to
session/{sid}/end, stops the media tracks, and clears isActive and
sessionId.  The awaited fetch suspends end(), so the dataavailable and
stop events queued by MediaRecorder.stop run at that point — before
sessionId is cleared; finalChunk is the data flushed by the recorder and
audioOutcome the outcome of the resulting audio POST.  endOk is the
outcome of the termination fetch: when it rejects, control jumps to the
catch block (which only logs), skipping the track stop and the resets of
isActive and sessionId. -/
def endLiveVoice (s : ClientState) (finalChunk : List Nat)
    (audioOutcome : Option ServerResp) (endOk : Bool) : ClientState × List Effect :=
  match s.sessionId with
  | none => (s, [])
  | some sid =>
    let (s1, stopped) := stopRecording s
    let s2 := if s1.eventSourceOpen then { s1 with eventSourceOpen := false } else s1
    let closeEffs := if s1.eventSourceOpen then [Effect.closeStream] else []
    let (s3, recEffs) :=
      if stopped then onstop (ondataavailable s2 finalChunk) audioOutcome
      else (s2, ([] : List Effect))
    let effs := closeEffs ++ [Effect.request (Request.endSession sid)] ++ recEffs
    if endOk then
      let s4 :=
        match s3.recorder with
        | some r => { s3 with recorder := some { r with tracksLive := false } }
        | none => s3
      let trackEffs :=
        match s3.recorder with
        | some _ => [Effect.stopTracks]
        | none => ([] : List Effect)
      ({ s4 with isActive := false, sessionId := none }, effs ++ trackEffs)
    else (s3, effs)

/-- One incoming event on the push channel from the point of view of the
client: either parsed data delivered to onmessage, or a transport error
delivered to onerror with the readyState of the EventSource. -/
inductive StreamInput
  | dataMsg (d : ServerData)
  | transportError (readyStateClosed : Bool)
deriving DecidableEq, Repr

/-- Dispatch one stream input to the handler the source installs for it. -/
def processInput (s : ClientState) (i : StreamInput) : ClientState × List Effect :=
  match i with
  | StreamInput.dataMsg d => handleServerMessage s d
  | StreamInput.transportError c => onSseError s c

/-- Run the client over a timestamped trace of stream inputs,
accumulating effects.  The timestamps are carried so that temporal
claims (gaps between heartbeats) can be stated about a trace; the client
installs no timer of any kind, so its behaviour depends only on the
inputs, never on the timestamps. -/
def processTrace (s : ClientState) : List (Nat × StreamInput) → ClientState × List Effect
  | [] => (s, [])
  | (_, i) :: rest =>
    let (s', e) := processInput s i
    let (s'', e') := processTrace s' rest
    (s'', e ++ e')

/-- The delays of the reconnect attempts scheduled in a list of effects,
in order. -/
def retryDelays (effs : List Effect) : List Nat :=
  effs.filterMap fun e =>
    match e with
    | Effect.scheduledRetry d => some d
    | _ => none

/-- The audio submissions in a list of effects: session id and blob of
each postAudio request, in order. -/
def audioRequests (effs : List Effect) : List (String × List Nat) :=
  effs.filterMap fun e =>
    match e with
    | Effect.request (Request.postAudio sid blob) => some (sid, blob)
    | _ => none

/-- The state of the client after n consecutive connection-loss cycles:
each cycle is an onerror event with readyState CLOSED, answered by
reconnect, whose timeout then fires setupEventStream; the following
cycle starts when the reopened stream fails again.  Effects of all
cycles are accumulated in order. -/
def afterFailures (s : ClientState) : Nat → ClientState × List Effect
  | 0 => (s, [])
  | n + 1 =>
    let (s', effs) := afterFailures s n
    let (s'', effs') := onSseError s' true
    (s'', effs ++ effs')

/-- Modelled from the spec: the server-side SessionManager and its
session Message log are not part of src/ (only the client is).  Per the
data model a Message has a role, optional content, optional audio
payload and a sequence number monotonic per session; the first assistant
Message of a session has sequence 1. -/
structure Message where
  role : String
  content : Option String
  audio : Option String
  seq : Nat
deriving DecidableEq, Repr

/-- Modelled from the spec: a Session owns an ordered log of Messages;
only the log matters to the sequence-number claims. -/
structure Session where
  log : List Message
deriving DecidableEq, Repr

/-- Modelled from the spec: SessionManager appends Messages to the
session log one at a time (user inputs and completed assistant
responses), assigning the next sequence number: the first Message gets
sequence 1, each later one the previous sequence plus one. -/
def appendMessage (sess : Session) (role : String) (content : Option String)
    (audio : Option String) : Session :=
  { sess with
    log := sess.log ++ [{ role := role, content := content, audio := audio,
                          seq := sess.log.length + 1 }] }

/-- Modelled from the spec: a freshly created Session has an empty log. -/
def emptySession : Session := { log := [] }

/-- The Session obtained by appending the given (role, content, audio)
entries, in order, to a freshly created Session. -/
def mkSession (entries : List (String × Option String × Option String)) : Session :=
  entries.foldl (fun sess e => appendMessage sess e.1 e.2.1 e.2.2) emptySession

theorem foldl_appendMessage_map_seq
    (entries : List (String × Option String × Option String)) (sess : Session) :
    ((entries.foldl (fun t e => appendMessage t e.1 e.2.1 e.2.2) sess).log.map Message.seq)
      = sess.log.map Message.seq ++ List.range' (sess.log.length + 1) entries.length := by
  induction entries generalizing sess with
  | nil => simp
  | cons e rest ih =>
    rw [List.foldl_cons, ih]
    simp [appendMessage, List.range'_succ, List.append_assoc, Nat.add_assoc,
      Nat.add_comm 1 1]

theorem mkSession_map_seq (entries : List (String × Option String × Option String)) :
    (mkSession entries).log.map Message.seq = List.range' 1 entries.length := by
  simpa [mkSession, emptySession] using foldl_appendMessage_map_seq entries emptySession

theorem endLiveVoice_of_no_session (s : ClientState) (c : List Nat)
    (a : Option ServerResp) (ok : Bool) (h : s.sessionId = none) :
    endLiveVoice s c a ok = (s, []) := by
  simp [endLiveVoice, h]

theorem endLiveVoice_true_clears_session (s : ClientState) (c : List Nat)
    (a : Option ServerResp) : (endLiveVoice s c a true).1.sessionId = none := by
  cases hs : s.sessionId with
  | none => simp [endLiveVoice, hs]
  | some sid => simp [endLiveVoice, hs]

theorem retryDelays_append (l l' : List Effect) :
    retryDelays (l ++ l') = retryDelays l ++ retryDelays l' := by
  simp [retryDelays]

theorem retryDelays_onSseError_closed (s : ClientState) :
    retryDelays (onSseError s true).2 = [3000] := by
  cases hs : s.sessionId <;>
    simp [onSseError, reconnect, setupEventStream, hs, retryDelays]

theorem retryDelays_afterFailures (s : ClientState) (n : Nat) :
    retryDelays (afterFailures s n).2 = List.replicate n 3000 := by
  induction n with
  | zero => rfl
  | succ n ih =>
    cases h : afterFailures s n with
    | mk s' effs =>
      rw [List.replicate_succ']
      simp only [afterFailures, h]
      cases h' : onSseError s' true with
      | mk s'' effs' =>
        rw [retryDelays_append]
        have h1 : retryDelays effs = List.replicate n 3000 := by
          simpa [h] using ih
        have h2 : retryDelays effs' = [3000] := by
          simpa [h'] using retryDelays_onSseError_closed s'
        rw [h1, h2]

theorem retryDelays_handleServerMessage (s : ClientState) (d : ServerData) :
    retryDelays (handleServerMessage s d).2 = [] := by
  cases d with
  | message role content audio =>
    by_cases h1 : role = "assistant"
    · cases audio with
      | none => simp [handleServerMessage, h1, retryDelays]
      | some a =>
        by_cases ha : a.isEmpty <;> simp [handleServerMessage, h1, ha, retryDelays]
    · by_cases h2 : role = "user" <;> simp [handleServerMessage, h1, h2, retryDelays]
  | heartbeat => rfl
  | other err =>
    cases err with
    | none => rfl
    | some e => by_cases he : e.isEmpty <;> simp [handleServerMessage, he, retryDelays]

theorem audioRequests_append (l l' : List Effect) :
    audioRequests (l ++ l') = audioRequests l ++ audioRequests l' := by
  simp [audioRequests]

theorem audioRequests_respEffects (r : ServerResp) :
    audioRequests (respEffects r) = [] := by
  rcases r with ⟨a, t⟩
  cases a <;> cases t <;> simp [respEffects, audioRequests]

theorem audioRequests_nil : audioRequests [] = [] := rfl

theorem audioRequests_cons (e : Effect) (l : List Effect) :
    audioRequests (e :: l)
      = match e with
        | Effect.request (Request.postAudio sid blob) => (sid, blob) :: audioRequests l
        | _ => audioRequests l := by
  cases e with
  | request r => cases r <;> simp [audioRequests]
  | _ => simp [audioRequests]

theorem chain_le_replicate (n a : Nat) :
    List.Chain' (· ≤ ·) (List.replicate n a) := by
  induction n with
  | zero => simp
  | succ n ih =>
    cases n with
    | zero => simp
    | succ m =>
      rw [List.replicate_succ, List.replicate_succ, List.chain'_cons]
      exact ⟨le_refl a, by rw [← List.replicate_succ]; exact ih⟩

/-- C1: ending a session is idempotent.  When sessionId is null (never
started, or already ended), end() performs no network request, raises no
error and leaves the client state unchanged, releasing nothing.  After a
successful end() the sessionId is null again, so a second call is such a
no-op: it issues no request and releases no resource twice. -/
theorem end_idempotent (s : ClientState) (c c' : List Nat)
    (a a' : Option ServerResp) (ok ok' : Bool) :
    (s.sessionId = none → endLiveVoice s c a ok = (s, [])) ∧
    (endLiveVoice (endLiveVoice s c a true).1 c' a' ok'
      = ((endLiveVoice s c a true).1, [])) := by
  refine ⟨fun h => endLiveVoice_of_no_session s c a ok h, ?_⟩
  exact endLiveVoice_of_no_session _ c' a' ok' (endLiveVoice_true_clears_session s c a)

/-- Witness for C1 at concrete inputs: end() on a client that never
started a session is a no-op, and a second end() after a successful
end() of a live client is a no-op. -/
theorem end_idempotent_witness :
    endLiveVoice ⟨none, false, false, none, []⟩ [] none true
      = (⟨none, false, false, none, []⟩, []) ∧
    endLiveVoice
      (endLiveVoice ⟨some "s", true, true, some ⟨RecState.recording, true⟩, [[1]]⟩
        [] none true).1 [] none true
      = ((endLiveVoice ⟨some "s", true, true, some ⟨RecState.recording, true⟩, [[1]]⟩
        [] none true).1, []) :=
  ⟨(end_idempotent ⟨none, false, false, none, []⟩ [] [] none none true true).1 rfl,
   (end_idempotent ⟨some "s", true, true, some ⟨RecState.recording, true⟩, [[1]]⟩
      [] [] none none true true).2⟩

/-- C2: the claim demands that the media tracks of the captured stream
are stopped on every exit path of end(), even when the termination
request fails.  The code, however, stops the tracks only after the
awaited fetch inside the try block: at the concrete failing input below
— a live client whose POST session/s/end rejects — end() returns with
the tracks still live and without a stopTracks effect, so the audio
device stays held. -/
theorem end_fetch_failure_leaves_tracks_live :
    ((endLiveVoice ⟨some "s", true, true, some ⟨RecState.recording, true⟩, [[1]]⟩
        [] none false).1.recorder = some ⟨RecState.inactive, true⟩) ∧
    Effect.stopTracks ∉
      (endLiveVoice ⟨some "s", true, true, some ⟨RecState.recording, true⟩, [[1]]⟩
        [] none false).2 := by
  decide

/-- C9: no audio or text is ever sent before a session exists.  When
sessionId is null, sendTextMessage and sendAudioToServer return without
issuing any network request and without changing the client state. -/
theorem no_send_without_session (s : ClientState) (text : String) (blob : List Nat)
    (o1 : Except String ServerResp) (o2 : Option ServerResp)
    (h : s.sessionId = none) :
    sendTextMessage s text o1 = (s, []) ∧ sendAudioToServer s blob o2 = (s, []) := by
  constructor <;> simp [sendTextMessage, sendAudioToServer, h]

/-- Witness for C9 at a concrete input: a freshly constructed client
(no session) sends nothing. -/
theorem no_send_without_session_witness :
    sendTextMessage ⟨none, false, false, none, []⟩ "hello" (Except.ok ⟨none, none⟩)
      = (⟨none, false, false, none, []⟩, []) ∧
    sendAudioToServer ⟨none, false, false, none, []⟩ [1, 2] none
      = (⟨none, false, false, none, []⟩, []) :=
  no_send_without_session ⟨none, false, false, none, []⟩ "hello" [1, 2]
    (Except.ok ⟨none, none⟩) none rfl

/-- C10: recording start and stop are guarded against mismatched calls.
startRecording returns true exactly when a recorder exists in the
inactive state, in which case it clears the chunk buffer and starts the
recorder; otherwise it returns false and changes nothing.  stopRecording
returns true exactly when the recorder is recording, in which case it
stops it; otherwise it returns false and changes nothing.  Both are
total functions, so repeated or out-of-order calls never raise an
error. -/
theorem recording_guards (s : ClientState) :
    ((startRecording s).2 = true ↔
      ∃ r, s.recorder = some r ∧ r.state = RecState.inactive) ∧
    ((startRecording s).2 = false → startRecording s = (s, false)) ∧
    (∀ r, s.recorder = some r → r.state = RecState.inactive →
      startRecording s
        = ({ s with audioChunks := [], recorder := some { r with state := RecState.recording } }, true)) ∧
    ((stopRecording s).2 = true ↔
      ∃ r, s.recorder = some r ∧ r.state = RecState.recording) ∧
    ((stopRecording s).2 = false → stopRecording s = (s, false)) ∧
    (∀ r, s.recorder = some r → r.state = RecState.recording →
      stopRecording s
        = ({ s with recorder := some { r with state := RecState.inactive } }, true)) := by
  cases hr : s.recorder with
  | none => simp [startRecording, stopRecording, hr]
  | some r =>
    by_cases h1 : r.state = RecState.inactive <;>
      by_cases h2 : r.state = RecState.recording <;>
        simp_all [startRecording, stopRecording, hr]

/-- Witness for C10 at a concrete input: starting an inactive recorder
succeeds and clears the buffer; stopping it (out of order, it is not
recording) is refused with no effect. -/
theorem recording_guards_witness :
    startRecording ⟨none, false, false, some ⟨RecState.inactive, true⟩, [[7]]⟩
      = (⟨none, false, false, some ⟨RecState.recording, true⟩, []⟩, true) ∧
    stopRecording ⟨none, false, false, some ⟨RecState.inactive, true⟩, [[7]]⟩
      = (⟨none, false, false, some ⟨RecState.inactive, true⟩, [[7]]⟩, false) :=
  ⟨(recording_guards ⟨none, false, false, some ⟨RecState.inactive, true⟩, [[7]]⟩).2.2.1
      ⟨RecState.inactive, true⟩ rfl rfl,
   (recording_guards ⟨none, false, false, some ⟨RecState.inactive, true⟩, [[7]]⟩).2.2.2.2.1
      rfl⟩

/-- C3 counterexample: the client tracks no in-flight Turn.  At the
concrete input below a first sendTextMessage leaves the client state
literally unchanged while its response is still pending, so a second
sendTextMessage issued before that response arrives posts a second
concurrent request and returns no failure at all — there is no
TurnInProgress rejection anywhere in the client. -/
theorem sendText_no_turn_gating :
    (sendTextMessage ⟨some "s", true, true, none, []⟩ "hello"
        (Except.ok ⟨none, none⟩)).1 = ⟨some "s", true, true, none, []⟩ ∧
    (sendTextMessage ⟨some "s", true, true, none, []⟩ "hello"
        (Except.ok ⟨none, none⟩)).2
      = [Effect.request (Request.postText "s" "hello")] ∧
    (sendTextMessage (sendTextMessage ⟨some "s", true, true, none, []⟩ "hello"
        (Except.ok ⟨none, none⟩)).1 "again" (Except.ok ⟨none, none⟩)).2
      = [Effect.request (Request.postText "s" "again")] := by
  decide

/-- C3 amended: on every call with a live session and non-blank text,
sendTextMessage issues a network request and leaves the client state
unchanged — no in-flight marker is recorded and no submission is ever
rejected, so a second call before the first response arrives issues a
second concurrent request rather than failing with TurnInProgress;
only a null sessionId or blank text suppresses the request. -/
theorem sendText_always_requests (s : ClientState) (sid : String) (text : String)
    (r : ServerResp) (h : s.sessionId = some sid) (ht : ¬ jsTrim text = "") :
    (sendTextMessage s text (Except.ok r)).1 = s ∧
    (sendTextMessage s text (Except.ok r)).2
      = Effect.request (Request.postText sid text) :: respEffects r := by
  constructor <;> simp [sendTextMessage, h, ht]

/-- Witness for the amended C3 at a concrete input. -/
theorem sendText_always_requests_witness :
    (sendTextMessage ⟨some "s", true, true, none, []⟩ "hi"
        (Except.ok ⟨none, none⟩)).2
      = Effect.request (Request.postText "s" "hi") :: respEffects ⟨none, none⟩ :=
  (sendText_always_requests ⟨some "s", true, true, none, []⟩ "s" "hi" ⟨none, none⟩
    rfl (by decide)).2

/-- C4 counterexample: the reconnection policy of the client is a bare
setTimeout of 3000 ms with no attempt counter.  At the concrete client
below, three consecutive connection losses schedule three retries of
3000 ms each, and no bound B caps the number of retry attempts across
runs of any length — the client never transitions to an Error state,
contradicting the claimed bounded attempt budget. -/
theorem reconnect_no_attempt_budget :
    retryDelays (afterFailures ⟨some "s", true, true, none, []⟩ 3).2
      = [3000, 3000, 3000] ∧
    ¬ ∃ B : Nat, ∀ n : Nat,
        (retryDelays (afterFailures ⟨some "s", true, true, none, []⟩ n).2).length ≤ B := by
  constructor
  · decide
  · rintro ⟨B, hB⟩
    have h := hB (B + 1)
    rw [retryDelays_afterFailures] at h
    simp at h

/-- C4 amended: every detected connection loss schedules one retry after
the constant delay of 3000 ms, so the delay sequence is trivially
non-decreasing and capped at 3000 ms; but the number of attempts is
unbounded — after n losses the client has scheduled n retries, for every
n — and there is no attempt budget and no transition to an Error
state. -/
theorem reconnect_constant_backoff_unbounded (s : ClientState) (n : Nat) :
    retryDelays (afterFailures s n).2 = List.replicate n 3000 ∧
    List.Chain' (· ≤ ·) (retryDelays (afterFailures s n).2) ∧
    (∀ d ∈ retryDelays (afterFailures s n).2, d = 3000) ∧
    (retryDelays (afterFailures s n).2).length = n := by
  have h := retryDelays_afterFailures s n
  refine ⟨h, ?_, ?_, ?_⟩ <;> rw [h]
  · exact chain_le_replicate n 3000
  · intro d hd
    exact (List.eq_of_mem_replicate hd)
  · simp

/-- C5 counterexample: the client installs no timer and keeps no record
of when the last heartbeat arrived.  At the concrete trace below the
heartbeats stop after t = 0 and the next input only arrives at t = 100 —
a gap longer than three times any plausible heartbeat interval — yet no
reconnection is ever begun and the client state never changes; with no
further inputs at all the client likewise does nothing, however much
time passes, because its output depends only on the received inputs. -/
theorem heartbeat_absence_never_triggers_reconnect :
    retryDelays (processTrace ⟨some "s", true, true, none, []⟩
        [(0, StreamInput.dataMsg ServerData.heartbeat)]).2 = [] ∧
    (processTrace ⟨some "s", true, true, none, []⟩
        [(0, StreamInput.dataMsg ServerData.heartbeat)]).1
      = ⟨some "s", true, true, none, []⟩ ∧
    retryDelays (processTrace ⟨some "s", true, true, none, []⟩
        [(0, StreamInput.dataMsg ServerData.heartbeat),
         (100, StreamInput.dataMsg ServerData.heartbeat)]).2 = [] := by
  decide

/-- C5 amended: the client begins reconnection only when the
EventSource fires an error event while its readyState is CLOSED; a
heartbeat is merely logged — no state change, no effects, no timer — so
over any trace free of such transport errors no reconnection is ever
begun, regardless of how long the heartbeats have been absent. -/
theorem reconnect_only_on_closed_transport_error (s : ClientState)
    (tr : List (Nat × StreamInput))
    (h : ∀ p ∈ tr, p.2 ≠ StreamInput.transportError true) :
    retryDelays (processTrace s tr).2 = [] ∧
    handleServerMessage s ServerData.heartbeat = (s, []) := by
  refine ⟨?_, rfl⟩
  induction tr generalizing s with
  | nil => rfl
  | cons p rest ih =>
    obtain ⟨t, i⟩ := p
    have hi : i ≠ StreamInput.transportError true := h (t, i) (List.mem_cons_self _ _)
    have hrest : ∀ q ∈ rest, q.2 ≠ StreamInput.transportError true :=
      fun q hq => h q (List.mem_cons_of_mem _ hq)
    cases hpi : processInput s i with
    | mk s' e =>
      cases hpt : processTrace s' rest with
      | mk s'' e' =>
        have he : retryDelays e = [] := by
          cases i with
          | dataMsg d =>
            have := retryDelays_handleServerMessage s d
            simp only [processInput] at hpi
            rw [hpi] at this
            exact this
          | transportError c =>
            cases c with
            | true => exact absurd rfl hi
            | false =>
              simp [processInput, onSseError] at hpi
              rw [hpi.2]
              rfl
        have he' : retryDelays e' = [] := by
          have := ih s' hrest
          rw [hpt] at this
          exact this
        simp [processTrace, hpi, hpt, retryDelays_append, he, he']

/-- Witness for the amended C5 at a concrete trace containing a
heartbeat, an assistant message and a transport error whose readyState
is not CLOSED: no retry is scheduled. -/
theorem reconnect_only_on_closed_transport_error_witness :
    retryDelays (processTrace ⟨some "s", true, true, none, []⟩
        [(0, StreamInput.dataMsg ServerData.heartbeat),
         (5, StreamInput.dataMsg (ServerData.message "assistant" (some "hi") none)),
         (9, StreamInput.transportError false)]).2 = [] ∧
    handleServerMessage ⟨some "s", true, true, none, []⟩ ServerData.heartbeat
      = (⟨some "s", true, true, none, []⟩, []) :=
  reconnect_only_on_closed_transport_error ⟨some "s", true, true, none, []⟩
    [(0, StreamInput.dataMsg ServerData.heartbeat),
     (5, StreamInput.dataMsg (ServerData.message "assistant" (some "hi") none)),
     (9, StreamInput.transportError false)]
    (by decide)

/-- C6 counterexample: a partial utterance in progress at shutdown is
sent, not discarded.  At the concrete input below the client is
recording with chunk [1, 2] buffered when end() is called;
stopRecording fires the queued recorder events while end() awaits the
termination fetch and sessionId is still set, so the partially recorded
audio [1, 2, 3] (with the flushed final chunk [3]) is posted to the
server. -/
theorem end_sends_buffered_audio :
    Effect.request (Request.postAudio "s" [1, 2, 3]) ∈
      (endLiveVoice ⟨some "s", true, true, some ⟨RecState.recording, true⟩, [[1, 2]]⟩
        [3] (some ⟨none, none⟩) true).2 := by
  decide

/-- C6 amended: each recorder stop emits the buffered chunks exactly
once, concatenated in capture order, and clears the buffer — so no
utterance is ever emitted twice — but a partial utterance at shutdown is
emitted too: end() called while recording is active posts the buffered
audio (including the final flushed chunk) to the server instead of
discarding it. -/
theorem utterance_once_and_sent_on_shutdown (s : ClientState) (sid : String)
    (rec : Recorder) (r : Option ServerResp) (c : List Nat) (ok : Bool)
    (h : s.sessionId = some sid) (hrec : s.recorder = some rec)
    (hst : rec.state = RecState.recording) :
    audioRequests (onstop s r).2 = [(sid, s.audioChunks.flatten)] ∧
    (onstop s r).1.audioChunks = [] ∧
    audioRequests (endLiveVoice s c r ok).2
      = [(sid, (if 0 < c.length then s.audioChunks ++ [c] else s.audioChunks).flatten)] := by
  have hsr : stopRecording s
      = ({ s with recorder := some { rec with state := RecState.inactive } }, true) := by
    simp [stopRecording, hrec, hst]
  refine ⟨?_, ?_, ?_⟩
  · cases r <;>
      simp [onstop, sendAudioToServer, h, audioRequests_cons, audioRequests_nil,
        audioRequests_respEffects]
  · cases r <;> simp [onstop, sendAudioToServer, h]
  · by_cases heo : s.eventSourceOpen <;> cases ok <;> by_cases hc : 0 < c.length <;>
      cases r <;>
        simp [endLiveVoice, h, hsr, ondataavailable, onstop, sendAudioToServer, heo, hc,
          audioRequests_append, audioRequests_respEffects, audioRequests_cons,
          audioRequests_nil]

/-- Witness for the amended C6 at a concrete input: ending the client
while it records with [1, 2] buffered and [3] flushed posts exactly one
audio request carrying [1, 2, 3]. -/
theorem utterance_once_and_sent_on_shutdown_witness :
    audioRequests (endLiveVoice
        ⟨some "s", true, true, some ⟨RecState.recording, true⟩, [[1, 2]]⟩
        [3] (some ⟨none, none⟩) true).2 = [("s", [1, 2, 3])] ∧
    (onstop ⟨some "s", true, true, some ⟨RecState.recording, true⟩, [[1, 2]]⟩
        (some ⟨none, none⟩)).1.audioChunks = [] := by
  have h := utterance_once_and_sent_on_shutdown
    ⟨some "s", true, true, some ⟨RecState.recording, true⟩, [[1, 2]]⟩ "s"
    ⟨RecState.recording, true⟩ (some ⟨none, none⟩) [3] true rfl rfl rfl
  exact ⟨by simpa using h.2.2, h.2.1⟩

/-- C7 counterexample: at the concrete input below, receiving an
assistant Message makes the client display the content and play the
audio, but the client state after the call is literally the state
before it — the client has no conversational state, so no transition to
a Responding state happens and there is nothing to return to
Idle/Listening when playback completes. -/
theorem assistant_message_no_state_transition :
    (handleServerMessage ⟨some "s", true, true, none, []⟩
        (ServerData.message "assistant" (some "hello") (some "QUJD"))).1
      = ⟨some "s", true, true, none, []⟩ ∧
    (handleServerMessage ⟨some "s", true, true, none, []⟩
        (ServerData.message "assistant" (some "hello") (some "QUJD"))).2
      = [Effect.display (some "hello"), Effect.play "QUJD"] := by
  decide

/-- C7 amended: on receipt of an assistant Message the client displays
the content and plays the audio when one is present; it keeps no
conversational state at all — handleServerMessage leaves the client
state unchanged on every input, so no Responding transition occurs and
none is reverted after playback; a heartbeat changes nothing and emits
nothing. -/
theorem handleServerMessage_state_invariant (s : ClientState) (d : ServerData)
    (content audio : Option String) :
    (handleServerMessage s d).1 = s ∧
    (handleServerMessage s (ServerData.message "assistant" content audio)).2
      = Effect.display content ::
          (match audio with
            | some a => if a.isEmpty then [] else [Effect.play a]
            | none => []) ∧
    handleServerMessage s ServerData.heartbeat = (s, []) := by
  refine ⟨?_, by simp [handleServerMessage], rfl⟩
  cases d with
  | message role c' a' =>
    by_cases h1 : role = "assistant"
    · cases a' with
      | none => simp [handleServerMessage, h1]
      | some a => by_cases ha : a.isEmpty <;> simp [handleServerMessage, h1, ha]
    · by_cases h2 : role = "user" <;> simp [handleServerMessage, h1, h2]
  | heartbeat => rfl
  | other err =>
    cases err with
    | none => rfl
    | some e => by_cases he : e.isEmpty <;> simp [handleServerMessage, he]

/-- C8: sequence numbers in a session log are strictly increasing,
gapless and never reused.  For any list of appended entries the
sequence numbers of the log read 1, 2, ..., n: consecutive numbers
differ by exactly one (gapless), the list is strictly increasing, and
no number repeats. -/
theorem session_seq_strictly_increasing_gapless
    (entries : List (String × Option String × Option String)) :
    (mkSession entries).log.map Message.seq = List.range' 1 entries.length ∧
    List.Chain' (fun a b => b = a + 1) ((mkSession entries).log.map Message.seq) ∧
    List.Pairwise (· < ·) ((mkSession entries).log.map Message.seq) ∧
    ((mkSession entries).log.map Message.seq).Nodup := by
  have h := mkSession_map_seq entries
  refine ⟨h, ?_, ?_, ?_⟩ <;> rw [h]
  · cases hn : entries.length with
    | zero => simp
    | succ m =>
      rw [List.range'_succ]
      exact List.chain_succ_range' 1 m 1
  · exact List.pairwise_lt_range' ..
  · exact List.nodup_range' ..

/-- Witness for the amended C4 at a concrete input: two consecutive
losses schedule two retries of 3000 ms each. -/
theorem reconnect_constant_backoff_unbounded_witness :
    retryDelays (afterFailures ⟨some "s", true, true, none, []⟩ 2).2
      = List.replicate 2 3000 :=
  (reconnect_constant_backoff_unbounded ⟨some "s", true, true, none, []⟩ 2).1
